import Mathlib

/-!
Verification development for the libnvme python binding repository.

The only file in the repository is `setup.py`, the packaging script of the
python binding.  The design document additionally describes the core of the
underlying native NVMe device-management library (command codec, transport
channel, discovery engine, topology model, connect/disconnect orchestrator);
that core is not part of the packaged sources, so those components are
modelled here from the design document and the claims are settled against
those models.  The `setup.py` script itself is embedded directly from the
source.
-/

namespace Libnvme

/-! ## Embedding of setup.py -/

/-- Arguments with which `distutils.core.Extension` is constructed. -/
structure Extension where
  name : String
  sources : List String
  libraries : List String
  library_dirs : List String
  include_dirs : List String
deriving DecidableEq, Repr

/-- Arguments with which `distutils.core.setup` is called. -/
structure SetupCall where
  name : String
  ext_modules : List Extension
  py_modules : List String
deriving DecidableEq, Repr

/-- Ambient inputs a python script could in principle consult while it
evaluates: file contents, environment variables and command-line arguments. -/
structure PyEnv where
  fileContents : String → Option String
  envVars : String → Option String
  argv : List String

/-- Observable trace of one evaluation of `setup.py`: every `Extension`
constructed, every `setup` call made, and every ambient input consulted. -/
structure SetupPyTrace where
  extensions : List Extension
  setupCalls : List SetupCall
  filesRead : List String
  envVarsRead : List String
  argvRead : Bool
deriving DecidableEq, Repr

/-- The `libnvme_module` extension object built by `setup.py`: the
`Extension` constructed with name _libnvme and the source, library,
library-dir and include-dir lists written literally in the script. -/
def libnvme_module : Extension :=
  { name := "_libnvme"
    sources := ["src/nvme/libnvme_wrap.c"]
    libraries := ["nvme", "json-c", "uuid"]
    library_dirs := ["src"]
    include_dirs := ["./ccan"] }

/-- Evaluation of `setup.py`: the script constructs `libnvme_module` and then
calls `setup` once, with name libnvme, with that extension as the only
ext_module and with py_modules equal to the singleton list libnvme.  The
script contains only literal arguments, so the trace consults no ambient
input. -/
def runSetupPy (_env : PyEnv) : SetupPyTrace :=
  { extensions := [libnvme_module]
    setupCalls :=
      [{ name := "libnvme"
         ext_modules := [libnvme_module]
         py_modules := ["libnvme"] }]
    filesRead := []
    envVarsRead := []
    argvRead := false }

/-! ## Command Codec

Modelled from the spec: the Command Codec of the native library core is not
among the packaged sources.  `encode(command_kind, parameters)` produces a
fixed-size byte buffer; `decode_completion(buffer)` yields the status class,
status code and payload; known (type, code) pairs map to named error kinds
and unknown pairs stay an unclassified device error carrying the raw values.
-/

/-- Two-level status taxonomy: the status type field of an NVMe completion. -/
inductive StatusType
  | generic
  | commandSpecific
  | mediaIntegrity
  | pathRelated
  | vendorSpecific
  | reservedType (raw : Nat)
deriving DecidableEq, Repr

/-- Decoding of the raw 3-bit status-type field into the taxonomy. -/
def statusTypeOfRaw (t : Nat) : StatusType :=
  match t with
  | 0 => .generic
  | 1 => .commandSpecific
  | 2 => .mediaIntegrity
  | 3 => .pathRelated
  | 7 => .vendorSpecific
  | r => .reservedType r

/-- Named error kinds of the codec taxonomy.  `success` is the empty error;
`unclassified` carries the raw (type, code) pair of an unknown status. -/
inductive ErrorKind
  | success
  | invalidOpcode
  | invalidFieldInCommand
  | commandIdConflict
  | dataTransferError
  | abortedPowerLoss
  | internalError
  | invalidNamespaceOrFormat
  | commandSequenceError
  | lbaOutOfRange
  | capacityExceeded
  | namespaceNotReady
  | writeFault
  | unrecoveredReadError
  | endToEndGuardCheckError
  | internalPathError
  | controllerPathError
  | hostPathError
  | commandAbortedByHost
  | unclassified (sct : Nat) (sc : Nat)
deriving DecidableEq, Repr

/-- Classification table of known (status type, status code) pairs and the
named error kind each one maps to. -/
def statusTable : List (Nat × Nat × ErrorKind) :=
  [ (0, 0x00, .success),
    (0, 0x01, .invalidOpcode),
    (0, 0x02, .invalidFieldInCommand),
    (0, 0x03, .commandIdConflict),
    (0, 0x04, .dataTransferError),
    (0, 0x05, .abortedPowerLoss),
    (0, 0x06, .internalError),
    (0, 0x0b, .invalidNamespaceOrFormat),
    (0, 0x0c, .commandSequenceError),
    (0, 0x80, .lbaOutOfRange),
    (0, 0x81, .capacityExceeded),
    (0, 0x82, .namespaceNotReady),
    (2, 0x80, .writeFault),
    (2, 0x81, .unrecoveredReadError),
    (2, 0x82, .endToEndGuardCheckError),
    (3, 0x00, .internalPathError),
    (3, 0x60, .controllerPathError),
    (3, 0x70, .hostPathError),
    (3, 0x71, .commandAbortedByHost) ]

/-- Classification of a (status type, status code) pair: a pair listed in
the table maps to its named error kind; any pair not listed is left as an
unclassified device error carrying the raw values. -/
def classifyStatus (sct : Nat) (sc : Nat) : ErrorKind :=
  match statusTable.find? (fun r => r.1 == sct && r.2.1 == sc) with
  | some r => r.2.2
  | none => .unclassified sct sc

/-- Byte accessor on a raw buffer; bytes beyond the end read as zero. -/
def byteAt (buf : List Nat) (i : Nat) : Nat := (buf.getD i 0) % 256

/-- Raw 16-bit status field of a 16-byte completion entry: bytes 14 and 15,
little endian.  Bit 0 is the phase tag, bits 1 to 8 the status code, bits 9
to 11 the status type. -/
def statusFieldOf (buf : List Nat) : Nat :=
  byteAt buf 14 + 256 * byteAt buf 15

/-- Status code extracted from a completion buffer. -/
def scOf (buf : List Nat) : Nat := (statusFieldOf buf / 2) % 256

/-- Status type extracted from a completion buffer. -/
def sctOf (buf : List Nat) : Nat := (statusFieldOf buf / 512) % 8

/-- Decoded completion: status class, raw status code, command-specific
payload dword, and the classified error kind. -/
structure Completion where
  statusClass : StatusType
  statusCode : Nat
  payload : Nat
  error : ErrorKind
deriving DecidableEq, Repr

/-- Decoding of a 16-byte completion-queue entry: the payload is dword 0
(bytes 0 to 3, little endian), the status fields come from bytes 14 and 15,
and the (type, code) pair is classified through the taxonomy table. -/
def decode_completion (buf : List Nat) : Completion :=
  { statusClass := statusTypeOfRaw (sctOf buf)
    statusCode := scOf buf
    payload :=
      byteAt buf 0 + 256 * byteAt buf 1 + 65536 * byteAt buf 2 +
        16777216 * byteAt buf 3
    error := classifyStatus (sctOf buf) (scOf buf) }

/-- Kinds of commands the codec encodes. -/
inductive CommandKind
  | identifyController
  | identifyNamespace
  | getLogPage
  | nvmRead
  | nvmWrite
  | fabricsConnect
deriving DecidableEq, Repr

/-- Opcode of each command kind. -/
def opcodeOf : CommandKind → Nat
  | .identifyController => 0x06
  | .identifyNamespace => 0x06
  | .getLogPage => 0x02
  | .nvmRead => 0x02
  | .nvmWrite => 0x01
  | .fabricsConnect => 0x7f

/-- Parameters of a command to encode: target namespace, the two
command-specific dwords and the data-pointer address. -/
structure CmdParams where
  nsid : Nat
  cdw10 : Nat
  cdw11 : Nat
  dataAddr : Nat
deriving DecidableEq, Repr

/-- Little-endian 4-byte encoding of a 32-bit value. -/
def le32 (n : Nat) : List Nat :=
  [n % 256, n / 256 % 256, n / 65536 % 256, n / 16777216 % 256]

/-- Little-endian 8-byte encoding of a 64-bit value. -/
def le64 (n : Nat) : List Nat :=
  le32 (n % 4294967296) ++ le32 (n / 4294967296 % 4294967296)

/-- Encoding of a command into the fixed 64-byte submission-queue entry:
dword 0 holds the opcode, dword 1 the namespace identifier, bytes 24 to 31
the data pointer, dwords 10 and 11 the command-specific values; all other
fields are zero.  Modelled from the spec: fixed layout, fixed size, pure. -/
def encode (k : CommandKind) (p : CmdParams) : List Nat :=
  [opcodeOf k, 0, 0, 0] ++ le32 p.nsid ++
    List.replicate 16 0 ++ le64 p.dataAddr ++ List.replicate 8 0 ++
    le32 p.cdw10 ++ le32 p.cdw11 ++ List.replicate 16 0

theorem encode_length (k : CommandKind) (p : CmdParams) :
    (encode k p).length = 64 := by
  simp [encode, le32, le64]

/-! ## Topology Model

Modelled from the spec: the Topology Model of the native library core is not
among the packaged sources.  It is the mutable graph Host, Subsystem,
Controller, Namespace; `refresh(host)` re-runs discovery and reconciles,
updating an entity in place when its identity key still appears, removing an
entity no longer reachable, and never silently duplicating an entity with
the same identity key.
-/

/-- Connection state of a Controller in the orchestrator state machine. -/
inductive ConnState
  | disconnected
  | connecting
  | connected
  | disconnecting
deriving DecidableEq, Repr

/-- Namespace entity: a logical volume identified by its NSID within its
owning Controller, carrying size and block size. -/
structure Nspace where
  nsid : Nat
  size : Nat
  blockSize : Nat
deriving DecidableEq, Repr

/-- Controller entity: identified by a composite transport key within its
Subsystem; carries its connection state and its namespace set. -/
structure Controller where
  ckey : String
  state : ConnState
  namespaces : List Nspace
deriving DecidableEq, Repr

/-- Subsystem entity: identified by its NQN within the Host. -/
structure Subsystem where
  nqn : String
  controllers : List Controller
deriving DecidableEq, Repr

/-- Host entity: the topology root, one per process context. -/
structure Host where
  hostnqn : String
  hostname : String
  subsystems : List Subsystem
deriving DecidableEq, Repr

/-- Namespace data as reported by one discovery pass. -/
structure NsInfo where
  nsid : Nat
  size : Nat
  blockSize : Nat
deriving DecidableEq, Repr

/-- Controller data as reported by one discovery pass. -/
structure CtrlInfo where
  ckey : String
  namespaces : List NsInfo
deriving DecidableEq, Repr

/-- Subsystem data as reported by one discovery pass. -/
structure SubsysInfo where
  nqn : String
  controllers : List CtrlInfo
deriving DecidableEq, Repr

/-- Result of one discovery pass over all reachable subsystems. -/
abbrev Discovery := List SubsysInfo

/-- Removal of duplicate identity keys from a reported entity list, keeping
the first report of each key; `seen` accumulates keys already kept. -/
def dedupByKeyAux {α κ : Type} [DecidableEq κ] (key : α → κ) :
    List κ → List α → List α
  | _, [] => []
  | seen, x :: xs =>
    if key x ∈ seen then dedupByKeyAux key seen xs
    else x :: dedupByKeyAux key (key x :: seen) xs

/-- Removal of duplicate identity keys from a reported entity list. -/
def dedupByKey {α κ : Type} [DecidableEq κ] (key : α → κ) (l : List α) :
    List α :=
  dedupByKeyAux key [] l

/-- Reconciliation of one Namespace from its discovery report: when the NSID
already exists its attributes are replaced in place, otherwise a fresh
entity is created. -/
def reconcileNs (old : List Nspace) (i : NsInfo) : Nspace :=
  match old.find? (fun n => n.nsid == i.nsid) with
  | some _ => { nsid := i.nsid, size := i.size, blockSize := i.blockSize }
  | none => { nsid := i.nsid, size := i.size, blockSize := i.blockSize }

/-- Refresh of a Controller namespace set: reported NSIDs are deduplicated
by identity key, reconciled against the old set, and NSIDs no longer
reported are removed. -/
def refreshNamespaces (old : List Nspace) (infos : List NsInfo) :
    List Nspace :=
  (dedupByKey NsInfo.nsid infos).map (reconcileNs old)

/-- Reconciliation of one Controller from its discovery report, preserving
the connection state of an existing Controller with the same key. -/
def reconcileCtrl (old : List Controller) (i : CtrlInfo) : Controller :=
  match old.find? (fun c => c.ckey == i.ckey) with
  | some c =>
    { ckey := i.ckey
      state := c.state
      namespaces := refreshNamespaces c.namespaces i.namespaces }
  | none =>
    { ckey := i.ckey
      state := .connected
      namespaces := refreshNamespaces [] i.namespaces }

/-- Refresh of a Subsystem controller set. -/
def refreshControllers (old : List Controller) (infos : List CtrlInfo) :
    List Controller :=
  (dedupByKey CtrlInfo.ckey infos).map (reconcileCtrl old)

/-- Reconciliation of one Subsystem from its discovery report. -/
def reconcileSubsys (old : List Subsystem) (i : SubsysInfo) : Subsystem :=
  match old.find? (fun s => s.nqn == i.nqn) with
  | some s =>
    { nqn := i.nqn, controllers := refreshControllers s.controllers i.controllers }
  | none =>
    { nqn := i.nqn, controllers := refreshControllers [] i.controllers }

/-- Refresh of the whole topology under a Host: reported subsystems are
deduplicated by NQN and reconciled; a subsystem whose NQN is no longer
reported is removed. -/
def refresh (h : Host) (d : Discovery) : Host :=
  { h with subsystems := (dedupByKey SubsysInfo.nqn d).map (reconcileSubsys h.subsystems) }

/-- Well-formedness of a Host topology: subsystem NQNs are unique under the
Host, and namespace NSIDs are unique within each Controller. -/
def hostWF (h : Host) : Prop :=
  (h.subsystems.map Subsystem.nqn).Nodup ∧
    ∀ s ∈ h.subsystems, ∀ c ∈ s.controllers,
      (c.namespaces.map Nspace.nsid).Nodup

theorem dedupByKeyAux_nodup {α κ : Type} [DecidableEq κ] (key : α → κ) :
    ∀ (l : List α) (seen : List κ),
      ((dedupByKeyAux key seen l).map key).Nodup ∧
        ∀ k ∈ (dedupByKeyAux key seen l).map key, k ∉ seen
  | [], _ => by simp [dedupByKeyAux]
  | x :: xs, seen => by
    rcases Decidable.em (key x ∈ seen) with h | h
    · rw [dedupByKeyAux, if_pos h]
      exact dedupByKeyAux_nodup key xs seen
    · rw [dedupByKeyAux, if_neg h]
      obtain ⟨hnd, hmem⟩ := dedupByKeyAux_nodup key xs (key x :: seen)
      refine ⟨?_, ?_⟩
      · rw [List.map_cons, List.nodup_cons]
        exact ⟨fun hk => (hmem _ hk) (List.mem_cons_self _ _), hnd⟩
      · intro k hk
        rw [List.map_cons, List.mem_cons] at hk
        rcases hk with rfl | hk
        · exact h
        · exact fun hks => (hmem k hk) (List.mem_cons_of_mem _ hks)

theorem dedupByKey_nodup {α κ : Type} [DecidableEq κ] (key : α → κ)
    (l : List α) : ((dedupByKey key l).map key).Nodup :=
  (dedupByKeyAux_nodup key l []).1

theorem reconcileNs_nsid (old : List Nspace) (i : NsInfo) :
    (reconcileNs old i).nsid = i.nsid := by
  unfold reconcileNs
  cases old.find? (fun n => n.nsid == i.nsid) <;> rfl

theorem refreshNamespaces_nodup (old : List Nspace) (infos : List NsInfo) :
    ((refreshNamespaces old infos).map Nspace.nsid).Nodup := by
  unfold refreshNamespaces
  rw [List.map_map]
  have hcomp : (Nspace.nsid ∘ reconcileNs old) = NsInfo.nsid := by
    funext i; exact reconcileNs_nsid old i
  rw [hcomp]
  exact dedupByKey_nodup _ _

theorem mem_refreshControllers_nodup (old : List Controller)
    (infos : List CtrlInfo) (c : Controller)
    (hc : c ∈ refreshControllers old infos) :
    (c.namespaces.map Nspace.nsid).Nodup := by
  unfold refreshControllers at hc
  rw [List.mem_map] at hc
  obtain ⟨i, _, rfl⟩ := hc
  rcases hfind : old.find? (fun c0 => c0.ckey == i.ckey) with _ | c0 <;>
    simp [reconcileCtrl, hfind, refreshNamespaces_nodup]

theorem reconcileSubsys_nqn (old : List Subsystem) (i : SubsysInfo) :
    (reconcileSubsys old i).nqn = i.nqn := by
  unfold reconcileSubsys
  cases old.find? (fun s => s.nqn == i.nqn) <;> rfl

theorem mem_reconcileSubsys_controllers (old : List Subsystem) (i : SubsysInfo)
    (c : Controller) (hc : c ∈ (reconcileSubsys old i).controllers) :
    (c.namespaces.map Nspace.nsid).Nodup := by
  unfold reconcileSubsys at hc
  rcases hfind : old.find? (fun s => s.nqn == i.nqn) with _ | s0 <;>
    rw [hfind] at hc <;>
    exact mem_refreshControllers_nodup _ _ c hc

theorem refresh_hostWF (h : Host) (d : Discovery) : hostWF (refresh h d) := by
  constructor
  · show ((refresh h d).subsystems.map Subsystem.nqn).Nodup
    unfold refresh
    rw [List.map_map]
    have hcomp : (Subsystem.nqn ∘ reconcileSubsys h.subsystems) = SubsysInfo.nqn := by
      funext i; exact reconcileSubsys_nqn h.subsystems i
    rw [hcomp]
    exact dedupByKey_nodup _ _
  · intro s hs c hc
    unfold refresh at hs
    rw [List.mem_map] at hs
    obtain ⟨i, _, rfl⟩ := hs
    exact mem_reconcileSubsys_controllers _ _ c hc

/-! ## Identify and Discovery Engine

Modelled from the spec: the Identify and Discovery Engine of the native
library core is not among the packaged sources.  `identify_controller`,
`identify_namespace` and `list_namespace_ids` issue a bounded, known
sequence of commands; a failure mid-list aborts the whole call; any
underlying command failure turns the whole discovery pass into
`DiscoveryIncomplete{cause}` and no partial topology update is committed.
-/

/-- Errors in the overall taxonomy that the discovery and connect paths
report. -/
inductive OrchError
  | DiscoveryIncomplete (cause : ErrorKind)
  | ConnectFailed (cause : ErrorKind)
  | Timeout
  | TransportLost
deriving DecidableEq, Repr

/-- Identify Controller data used by discovery. -/
structure CtrlIdData where
  model : String
  serial : String
  firmware : String
deriving DecidableEq, Repr

/-- Behaviour of the device behind one Transport Channel during one
discovery pass: the outcome of Identify Controller, the per-entry outcomes
of the namespace-list enumeration, and the outcome of Identify Namespace for
each NSID. -/
structure ChannelBehaviour where
  identifyCtrlResult : Except ErrorKind CtrlIdData
  nsListEntries : List (Except ErrorKind Nat)
  identifyNsResult : Nat → Except ErrorKind NsInfo

/-- Collection of the namespace-id enumeration: the first failing entry
aborts the whole list, yielding no partial sequence. -/
def collectNsids : List (Except ErrorKind Nat) → Except ErrorKind (List Nat)
  | [] => .ok []
  | .error e :: _ => .error e
  | .ok n :: rest => (collectNsids rest).map (fun l => n :: l)

/-- Ordered namespace-id listing over a channel; one discovery pass, not
restartable mid-sequence. -/
def list_namespace_ids (ch : ChannelBehaviour) : Except ErrorKind (List Nat) :=
  collectNsids ch.nsListEntries

/-- Identify of every listed namespace in order; the first failure aborts. -/
def identifyAll (ch : ChannelBehaviour) :
    List Nat → Except ErrorKind (List NsInfo)
  | [] => .ok []
  | n :: rest =>
    match ch.identifyNsResult n with
    | .error e => .error e
    | .ok info => (identifyAll ch rest).map (fun l => info :: l)

/-- One discovery pass over a channel: Identify Controller, then the
namespace-id list, then Identify Namespace for each reported NSID; any
underlying command failure fails the whole call with
`DiscoveryIncomplete{cause}`. -/
def discover (ch : ChannelBehaviour) :
    Except OrchError (CtrlIdData × List NsInfo) :=
  match ch.identifyCtrlResult with
  | .error e => .error (.DiscoveryIncomplete e)
  | .ok idData =>
    match list_namespace_ids ch with
    | .error e => .error (.DiscoveryIncomplete e)
    | .ok nsids =>
      match identifyAll ch nsids with
      | .error e => .error (.DiscoveryIncomplete e)
      | .ok infos => .ok (idData, infos)

/-- Commit of one discovery pass for one subsystem and controller into the
Topology Model: on success the refreshed model is committed, on error the
model is returned unchanged together with the error. -/
def discoverAndCommit (h : Host) (nqn : String) (ckey : String)
    (ch : ChannelBehaviour) : Except OrchError Unit × Host :=
  match discover ch with
  | .error e => (.error e, h)
  | .ok (_, infos) =>
    (.ok (),
      refresh h [{ nqn := nqn
                   controllers := [{ ckey := ckey
                                     namespaces := infos.map
                                       (fun i => { nsid := i.nsid
                                                   size := i.size
                                                   blockSize := i.blockSize }) }] }])

/-- Presence of a failure of some underlying command during one discovery
pass over a channel: Identify Controller fails, or some entry of the
namespace-id enumeration fails, or Identify Namespace fails for some NSID
reported by a successful enumeration. -/
def commandFailureIn (ch : ChannelBehaviour) : Prop :=
  (∃ e, ch.identifyCtrlResult = .error e) ∨
    (∃ e, Except.error e ∈ ch.nsListEntries) ∨
    (∃ nsids, list_namespace_ids ch = .ok nsids ∧
      ∃ n ∈ nsids, ∃ e, ch.identifyNsResult n = .error e)

/-! ## Transport Channel and Connect/Disconnect Orchestrator

Modelled from the spec: the Transport Channel and the Orchestrator of the
native library core are not among the packaged sources.  The state machine
per Controller is Disconnected, Connecting, Connected, Disconnecting, with a
failure edge from Connecting back to Disconnected and a transport-loss edge
from Connected to Disconnected; a live channel is owned by a Controller in
Connected or Connecting state; closing the channel moves the owner to
Disconnected; `disconnect` on an already-disconnected controller succeeds
trivially.
-/

/-- Connection view of one Controller: its state-machine state and whether
its Transport Channel handle is live. -/
structure CtrlConn where
  state : ConnState
  channelOpen : Bool
deriving DecidableEq, Repr

/-- The initial connection view: no channel, disconnected. -/
def initConn : CtrlConn := { state := .disconnected, channelOpen := false }

/-- Events driving the per-Controller state machine. -/
inductive OrchEvent
  | openChannel
  | fabricsConnectOk
  | fabricsConnectFail
  | identifyFailTeardown
  | identifyOkRegister
  | startDisconnect
  | closeChannel
  | transportLoss
deriving DecidableEq, Repr

/-- One step of the per-Controller state machine.  Opening the channel moves
Disconnected to Connecting with a live channel; the failure edges close the
channel and return to Disconnected; entering Disconnecting begins teardown by
closing the handle; closing the channel always leaves the owner
Disconnected.  An event that does not apply in the current state leaves the
state unchanged. -/
def orchStep (c : CtrlConn) (e : OrchEvent) : CtrlConn :=
  match e, c.state with
  | .openChannel, .disconnected => { state := .connecting, channelOpen := true }
  | .fabricsConnectOk, .connecting => { state := .connected, channelOpen := c.channelOpen }
  | .fabricsConnectFail, .connecting => { state := .disconnected, channelOpen := false }
  | .identifyFailTeardown, .connecting => { state := .disconnected, channelOpen := false }
  | .identifyFailTeardown, .connected => { state := .disconnected, channelOpen := false }
  | .identifyOkRegister, .connected => c
  | .startDisconnect, .connected => { state := .disconnecting, channelOpen := false }
  | .closeChannel, _ => { state := .disconnected, channelOpen := false }
  | .transportLoss, _ => { state := .disconnected, channelOpen := false }
  | _, _ => c

/-- State reached from the initial state by a sequence of events. -/
def runOrch (evs : List OrchEvent) : CtrlConn :=
  evs.foldl orchStep initConn

/-- Path or transport class statuses: status type 3 of the taxonomy. -/
def isPathClass (sct : Nat) : Bool := sct == 3

/-- Handling of a hardware-reported completion status by the owning
Controller: a path or transport class error tears the connection down, any
other status is classified and reported to the caller with the Controller
connection left untouched. -/
def handleStatus (c : CtrlConn) (sct : Nat) (sc : Nat) :
    CtrlConn × ErrorKind :=
  if isPathClass sct then
    ({ state := .disconnected, channelOpen := false }, classifyStatus sct sc)
  else
    (c, classifyStatus sct sc)

/-- The multi-step connect sequence: open the Transport Channel, issue the
Fabrics connect command, run Identify over the channel, and only on full
success register the Controller and its namespace set into the Topology
Model.  A failure after the low-level connect tears the channel down,
returns the state machine to Disconnected and commits nothing. -/
def connect (h : Host) (nqn : String) (ckey : String) (openOk : Bool)
    (fabricsOk : Bool) (ch : ChannelBehaviour) :
    Except OrchError Unit × CtrlConn × Host :=
  if !openOk then
    (.error (.ConnectFailed .internalError), initConn, h)
  else
    -- channel open, state Connecting
    if !fabricsOk then
      (.error (.ConnectFailed .internalError),
        { state := .disconnected, channelOpen := false }, h)
    else
      match discover ch with
      | .error (.DiscoveryIncomplete e) =>
        (.error (.ConnectFailed e),
          { state := .disconnected, channelOpen := false }, h)
      | .error e =>
        (.error e, { state := .disconnected, channelOpen := false }, h)
      | .ok (_, infos) =>
        (.ok (), { state := .connected, channelOpen := true },
          refresh h [{ nqn := nqn
                       controllers := [{ ckey := ckey
                                         namespaces := infos.map
                                           (fun i => { nsid := i.nsid
                                                       size := i.size
                                                       blockSize := i.blockSize }) }] }])

/-- Teardown of one Controller: on an already-disconnected controller it
succeeds trivially and changes nothing; otherwise it closes the channel,
moves the state machine to Disconnected and removes the Controller entry
from the Topology Model. -/
def disconnect (c : CtrlConn) (h : Host) (nqn : String) (ckey : String) :
    Except OrchError Unit × CtrlConn × Host :=
  match c.state with
  | .disconnected => (.ok (), c, h)
  | _ =>
    (.ok (), { state := .disconnected, channelOpen := false },
      { h with subsystems :=
          h.subsystems.map (fun s =>
            if s.nqn == nqn then
              { s with controllers :=
                  s.controllers.filter (fun c0 => !(c0.ckey == ckey)) }
            else s) })

/-! ## Supporting lemmas -/

theorem collectNsids_error (pre : List Nat) (e : ErrorKind)
    (post : List (Except ErrorKind Nat)) :
    collectNsids (pre.map Except.ok ++ .error e :: post) = .error e := by
  induction pre with
  | nil => rfl
  | cons n rest ih => simp [collectNsids, ih, Except.map]

theorem collectNsids_isError (l : List (Except ErrorKind Nat))
    (hmem : ∃ e, Except.error e ∈ l) :
    ∃ e, collectNsids l = .error e := by
  induction l with
  | nil =>
    obtain ⟨e, he⟩ := hmem
    cases he
  | cons x rest ih =>
    cases x with
    | error e0 => exact ⟨e0, rfl⟩
    | ok n =>
      obtain ⟨e, he⟩ := hmem
      rw [List.mem_cons] at he
      rcases he with heq | he
      · exact absurd heq (by simp)
      · obtain ⟨e2, he2⟩ := ih ⟨e, he⟩
        exact ⟨e2, by simp [collectNsids, he2, Except.map]⟩

theorem identifyAll_isError (ch : ChannelBehaviour) (nsids : List Nat)
    (hmem : ∃ n ∈ nsids, ∃ e, ch.identifyNsResult n = .error e) :
    ∃ e, identifyAll ch nsids = .error e := by
  induction nsids with
  | nil =>
    obtain ⟨n, hn, _⟩ := hmem
    cases hn
  | cons m rest ih =>
    cases hr : ch.identifyNsResult m with
    | error e0 => exact ⟨e0, by simp [identifyAll, hr]⟩
    | ok info =>
      obtain ⟨n, hn, e, he⟩ := hmem
      rw [List.mem_cons] at hn
      rcases hn with rfl | hn
      · rw [hr] at he
        exact absurd he (by simp)
      · obtain ⟨e2, he2⟩ := ih ⟨n, hn, e, he⟩
        exact ⟨e2, by simp [identifyAll, hr, he2, Except.map]⟩

theorem discover_error_of_failure (ch : ChannelBehaviour)
    (hfail : commandFailureIn ch) :
    ∃ cause, discover ch = .error (.DiscoveryIncomplete cause) := by
  rcases hfail with ⟨e, he⟩ | ⟨e, he⟩ | ⟨nsids, hlist, hmem⟩
  · exact ⟨e, by simp [discover, he]⟩
  · cases hc : ch.identifyCtrlResult with
    | error e0 => exact ⟨e0, by simp [discover, hc]⟩
    | ok idData =>
      obtain ⟨e2, he2⟩ := collectNsids_isError ch.nsListEntries ⟨e, he⟩
      exact ⟨e2, by simp [discover, hc, list_namespace_ids, he2]⟩
  · cases hc : ch.identifyCtrlResult with
    | error e0 => exact ⟨e0, by simp [discover, hc]⟩
    | ok idData =>
      obtain ⟨e2, he2⟩ := identifyAll_isError ch nsids hmem
      exact ⟨e2, by simp [discover, hc, hlist, he2]⟩

/-- Invariant of the per-Controller state machine: a live channel implies a
Connected or Connecting owner. -/
def connInv (c : CtrlConn) : Prop :=
  c.channelOpen = true → c.state = .connected ∨ c.state = .connecting

theorem orchStep_connInv (c : CtrlConn) (e : OrchEvent) (h : connInv c) :
    connInv (orchStep c e) := by
  unfold connInv at h ⊢
  cases e <;> cases hs : c.state <;>
    simp only [orchStep, hs] <;> simp_all

theorem foldl_orchStep_connInv (evs : List OrchEvent) :
    ∀ c : CtrlConn, connInv c → connInv (evs.foldl orchStep c) := by
  induction evs with
  | nil => intro c h; exact h
  | cons e rest ih =>
    intro c h
    exact ih (orchStep c e) (orchStep_connInv c e h)

theorem disconnect_state (c : CtrlConn) (h : Host) (nqn ckey : String) :
    (disconnect c h nqn ckey).2.1.state = .disconnected ∧
      (disconnect c h nqn ckey).1 = .ok () := by
  unfold disconnect
  cases hs : c.state <;> simp_all

/-! ## Claims -/

/-- C1: after each call in any sequence of `refresh` calls, the Topology
Model contains no two entities with the same identity key within the same
parent scope: subsystem NQNs are unique under the Host and namespace NSIDs
are unique within each Controller. -/
theorem claim_C1_refresh_uniqueness (h : Host) (ds : List Discovery)
    (d : Discovery) : hostWF (refresh (ds.foldl refresh h) d) :=
  refresh_hostWF _ _

/-- C2: when the low-level transport connect succeeds but the subsequent
Identify fails, `connect` tears down the opened channel, returns
ConnectFailed with the cause, leaves the state machine Disconnected and
registers no Controller entry in the Topology Model. -/
theorem claim_C2_connect_identify_failure (h : Host) (nqn ckey : String)
    (ch : ChannelBehaviour) (e : ErrorKind)
    (hd : discover ch = .error (.DiscoveryIncomplete e)) :
    connect h nqn ckey true true ch =
      (.error (.ConnectFailed e),
        { state := .disconnected, channelOpen := false }, h) := by
  simp [connect, hd]

theorem claim_C2_witness :
    connect { hostnqn := "nqn.host", hostname := "local", subsystems := [] }
        "nqn.sub" "pcie-0000" true true
        { identifyCtrlResult := .error .internalError
          nsListEntries := []
          identifyNsResult := fun _ => .error .internalError } =
      (.error (.ConnectFailed .internalError),
        { state := .disconnected, channelOpen := false },
        { hostnqn := "nqn.host", hostname := "local", subsystems := [] }) :=
  claim_C2_connect_identify_failure _ _ _ _ _ rfl

/-- C3: whenever any underlying command of a discovery pass fails — Identify
Controller, an entry of the namespace-id enumeration, or Identify Namespace
for a listed NSID — the whole call fails with DiscoveryIncomplete and the
cause, no partial update is committed (the model is unchanged), and a
mid-list enumeration failure yields no partial NSID sequence. -/
theorem claim_C3_discovery_all_or_nothing (ch : ChannelBehaviour) (h : Host)
    (nqn ckey : String) (hfail : commandFailureIn ch) :
    (∃ cause, discover ch = .error (.DiscoveryIncomplete cause) ∧
        discoverAndCommit h nqn ckey ch =
          (.error (.DiscoveryIncomplete cause), h)) ∧
      ∀ (pre : List Nat) (e : ErrorKind) (post : List (Except ErrorKind Nat)),
        ch.nsListEntries = pre.map Except.ok ++ .error e :: post →
          list_namespace_ids ch = .error e := by
  constructor
  · obtain ⟨cause, hc⟩ := discover_error_of_failure ch hfail
    exact ⟨cause, hc, by simp [discoverAndCommit, hc]⟩
  · intro pre e post hmid
    rw [list_namespace_ids, hmid]
    exact collectNsids_error pre e post

theorem claim_C3_witness :
    (∃ cause,
        discover
            { identifyCtrlResult := .ok { model := "m", serial := "s", firmware := "f" }
              nsListEntries := [.ok 1, .error .internalError]
              identifyNsResult := fun n => .ok { nsid := n, size := 0, blockSize := 512 } } =
          .error (.DiscoveryIncomplete cause) ∧
        discoverAndCommit
            { hostnqn := "nqn.host", hostname := "local", subsystems := [] }
            "nqn.sub" "pcie-0000"
            { identifyCtrlResult := .ok { model := "m", serial := "s", firmware := "f" }
              nsListEntries := [.ok 1, .error .internalError]
              identifyNsResult := fun n => .ok { nsid := n, size := 0, blockSize := 512 } } =
          (.error (.DiscoveryIncomplete cause),
            { hostnqn := "nqn.host", hostname := "local", subsystems := [] })) ∧
      list_namespace_ids
          { identifyCtrlResult := .ok { model := "m", serial := "s", firmware := "f" }
            nsListEntries := [.ok 1, .error .internalError]
            identifyNsResult := fun n => .ok { nsid := n, size := 0, blockSize := 512 } } =
        .error .internalError := by
  have happ := claim_C3_discovery_all_or_nothing
      { identifyCtrlResult := .ok { model := "m", serial := "s", firmware := "f" }
        nsListEntries := [.ok 1, .error .internalError]
        identifyNsResult := fun n => .ok { nsid := n, size := 0, blockSize := 512 } }
      { hostnqn := "nqn.host", hostname := "local", subsystems := [] }
      "nqn.sub" "pcie-0000"
      (by unfold commandFailureIn
          exact Or.inr (Or.inl ⟨.internalError, by simp⟩))
  exact ⟨happ.1, happ.2 [1] .internalError [] rfl⟩

/-- C4: a completion whose status type is Generic with code 0x00 decodes to
success, the empty error; Generic with code 0x02 decodes to the named kind
invalidFieldInCommand, never the unclassified device error; and a pair
absent from the classification table is left unclassified carrying the raw
values. -/
theorem claim_C4_status_classification (buf : List Nat) (t c : Nat) :
    (sctOf buf = 0 ∧ scOf buf = 0 →
      (decode_completion buf).error = .success) ∧
    (sctOf buf = 0 ∧ scOf buf = 2 →
      (decode_completion buf).error = .invalidFieldInCommand ∧
        ∀ x y, (decode_completion buf).error ≠ .unclassified x y) ∧
    (statusTable.find? (fun r => r.1 == t && r.2.1 == c) = none →
      classifyStatus t c = .unclassified t c) := by
  refine ⟨fun hz => ?_, fun hz => ?_, fun hn => ?_⟩
  · rw [decode_completion]
    simp only [hz.1, hz.2]
    rfl
  · rw [decode_completion]
    simp only [hz.1, hz.2]
    exact ⟨rfl, by intro x y hxy; exact ErrorKind.noConfusion hxy⟩
  · rw [classifyStatus, hn]

theorem claim_C4_witness :
    (decode_completion [0, 0, 0, 0, 0, 0, 0, 0, 0, 0, 0, 0, 0, 0, 0, 0]).error
        = .success ∧
    (decode_completion [0, 0, 0, 0, 0, 0, 0, 0, 0, 0, 0, 0, 0, 0, 4, 0]).error
        = .invalidFieldInCommand ∧
    classifyStatus 1 85 = .unclassified 1 85 :=
  ⟨(claim_C4_status_classification
      [0, 0, 0, 0, 0, 0, 0, 0, 0, 0, 0, 0, 0, 0, 0, 0] 1 85).1 (by decide),
   ((claim_C4_status_classification
      [0, 0, 0, 0, 0, 0, 0, 0, 0, 0, 0, 0, 0, 0, 4, 0] 1 85).2.1 (by decide)).1,
   (claim_C4_status_classification
      [0, 0, 0, 0, 0, 0, 0, 0, 0, 0, 0, 0, 0, 0, 0, 0] 1 85).2.2 (by decide)⟩

/-- C5: a command completing with a hardware-reported status that is not of
the path or transport class leaves the owning Connected Controller
unchanged, and the classified error is reported to the caller. -/
theorem claim_C5_nonpath_status_keeps_connected (c : CtrlConn)
    (sct sc : Nat) (hconn : c.state = .connected)
    (hnp : isPathClass sct = false) :
    (handleStatus c sct sc).1 = c ∧
      (handleStatus c sct sc).1.state = .connected ∧
      (handleStatus c sct sc).2 = classifyStatus sct sc := by
  unfold handleStatus
  rw [hnp]
  exact ⟨rfl, hconn, rfl⟩

theorem claim_C5_witness :
    (handleStatus { state := .connected, channelOpen := true } 2 129).1 =
        { state := .connected, channelOpen := true } ∧
      (handleStatus { state := .connected, channelOpen := true } 2 129).1.state
        = .connected ∧
      (handleStatus { state := .connected, channelOpen := true } 2 129).2 =
        classifyStatus 2 129 :=
  claim_C5_nonpath_status_keeps_connected _ 2 129 rfl rfl

/-- C6: in every reachable state of the per-Controller state machine, a
live Transport Channel implies the owner is Connected or Connecting, never
Disconnected; and closing the channel leaves the owner Disconnected. -/
theorem claim_C6_live_channel_invariant (evs : List OrchEvent)
    (c : CtrlConn) :
    ((runOrch evs).channelOpen = true →
      (runOrch evs).state = .connected ∨ (runOrch evs).state = .connecting) ∧
    (orchStep c .closeChannel).state = .disconnected := by
  constructor
  · exact foldl_orchStep_connInv evs initConn (fun h => absurd h (by decide))
  · unfold orchStep
    cases c.state <;> rfl

theorem claim_C6_witness :
    ((runOrch [OrchEvent.openChannel]).state = .connected ∨
      (runOrch [OrchEvent.openChannel]).state = .connecting) ∧
    (orchStep initConn .closeChannel).state = .disconnected :=
  ⟨(claim_C6_live_channel_invariant [OrchEvent.openChannel] initConn).1
      (by decide),
   (claim_C6_live_channel_invariant [OrchEvent.openChannel] initConn).2⟩

/-- C7: `disconnect` is idempotent: on an already-Disconnected controller it
succeeds trivially leaving Controller and Topology Model unchanged, and
disconnect after disconnect equals a single disconnect. -/
theorem claim_C7_disconnect_idempotent (c : CtrlConn) (h : Host)
    (nqn ckey : String) (hd : c.state = .disconnected) :
    disconnect c h nqn ckey = (.ok (), c, h) ∧
      ∀ (c0 : CtrlConn) (h0 : Host),
        disconnect (disconnect c0 h0 nqn ckey).2.1
            (disconnect c0 h0 nqn ckey).2.2 nqn ckey =
          disconnect c0 h0 nqn ckey := by
  constructor
  · unfold disconnect
    rw [hd]
  · intro c0 h0
    obtain ⟨hstate, hok⟩ := disconnect_state c0 h0 nqn ckey
    conv_lhs => rw [disconnect, hstate]
    rw [← hok]

theorem claim_C7_witness :
    disconnect initConn
        { hostnqn := "nqn.host", hostname := "local", subsystems := [] }
        "nqn.sub" "pcie-0000" =
      (.ok (), initConn,
        { hostnqn := "nqn.host", hostname := "local", subsystems := [] }) :=
  (claim_C7_disconnect_idempotent initConn _ "nqn.sub" "pcie-0000" rfl).1

/-- C8: `encode` and `decode_completion` are pure transforms: equal inputs
give equal outputs, and both are total functions whose only effect is their
returned value. -/
theorem claim_C8_codec_pure (k k2 : CommandKind) (p p2 : CmdParams)
    (b b2 : List Nat) (hk : k = k2) (hp : p = p2) (hb : b = b2) :
    encode k p = encode k2 p2 ∧ decode_completion b = decode_completion b2 := by
  subst hk; subst hp; subst hb
  exact ⟨rfl, rfl⟩

theorem claim_C8_witness :
    encode .identifyController { nsid := 0, cdw10 := 1, cdw11 := 0, dataAddr := 4096 } =
        encode .identifyController { nsid := 0, cdw10 := 1, cdw11 := 0, dataAddr := 4096 } ∧
      decode_completion [0, 0, 0, 0, 0, 0, 0, 0, 0, 0, 0, 0, 0, 0, 4, 0] =
        decode_completion [0, 0, 0, 0, 0, 0, 0, 0, 0, 0, 0, 0, 0, 0, 4, 0] :=
  claim_C8_codec_pure .identifyController .identifyController
    { nsid := 0, cdw10 := 1, cdw11 := 0, dataAddr := 4096 }
    { nsid := 0, cdw10 := 1, cdw11 := 0, dataAddr := 4096 }
    [0, 0, 0, 0, 0, 0, 0, 0, 0, 0, 0, 0, 0, 0, 4, 0]
    [0, 0, 0, 0, 0, 0, 0, 0, 0, 0, 0, 0, 0, 0, 4, 0] rfl rfl rfl

/-- C9: evaluating setup.py constructs exactly one Extension named
_libnvme, built from the single C source src/nvme/libnvme_wrap.c, linked
against nvme, json-c and uuid, and calls setup exactly once with name
libnvme, that extension as the only ext_module and py_modules [libnvme]. -/
theorem claim_C9_setup_py_structure (env : PyEnv) :
    (runSetupPy env).extensions = [libnvme_module] ∧
      libnvme_module.name = "_libnvme" ∧
      libnvme_module.sources = ["src/nvme/libnvme_wrap.c"] ∧
      libnvme_module.libraries = ["nvme", "json-c", "uuid"] ∧
      (runSetupPy env).setupCalls =
        [{ name := "libnvme"
           ext_modules := [libnvme_module]
           py_modules := ["libnvme"] }] :=
  ⟨rfl, rfl, rfl, rfl, rfl⟩

/-- C10: evaluation of setup.py is deterministic and input independent: it
reads no files, environment variables or arguments, and any two evaluations
produce identical traces. -/
theorem claim_C10_setup_py_deterministic (e1 e2 : PyEnv) :
    runSetupPy e1 = runSetupPy e2 ∧
      (runSetupPy e1).filesRead = [] ∧
      (runSetupPy e1).envVarsRead = [] ∧
      (runSetupPy e1).argvRead = false :=
  ⟨rfl, rfl, rfl, rfl⟩

end Libnvme
